import Mathlib

/-!
Verification of the Meeting-Summarizer core against its specification.

Shallow embedding of `src/main.py` (SummaryProcessor, the background run,
the submit and read API paths) and `src/schema_validator.py`
(DatabaseManager schema and `_execute_transaction`).

Machine integers are modelled as `Int`; Python strings as `String`;
raising an exception as returning `Except.error`; the asynchronous
`TranscriptProcessor.process_transcript` (whose source file is not part
of the verified sources) is an abstract parameter of type `Backend`.
-/

/-- Python `text.strip()` is falsy exactly when every character of the
text is whitespace; this models the guard `if not text.strip()`. -/
def pyStripIsEmpty (s : String) : Bool :=
  s.data.all Char.isWhitespace

/-- Python truthiness of an optional string followed by `or default`:
`custom_prompt or "..."` yields the default when the value is `None` or
the empty string. -/
def pyOrDefault (o : Option String) (d : String) : String :=
  match o with
  | none => d
  | some s => if s.isEmpty then d else s

/-- Default prompt from `main.py` (`custom_prompt or "Generate a summary
of the meeting transcript."`). -/
def defaultPrompt : String := "Generate a summary of the meeting transcript."

/-- Abstraction of `TranscriptProcessor.process_transcript` (its module is an
external collaborator, not among the verified sources): given
`(text, model, model_name, chunk_size, overlap, custom_prompt)` it either
raises (`Except.error`) or returns `(num_chunks, all_json_data)`. -/
def Backend : Type :=
  String → String → String → Int → Int → String → Except String (Int × List String)

/-- Embedding of `SummaryProcessor.process_transcript` (src/main.py:97-112):

    if not text.strip(): raise ValueError("Transcript text is empty")
    if chunk_size <= 0 or overlap < 0: raise ValueError("Invalid chunk_size or overlap")
    if overlap >= chunk_size: overlap = chunk_size - 1
    return await self.transcript_processor.process_transcript(...)
-/
def SummaryProcessor.process_transcript (backend : Backend)
    (text model model_name : String) (chunk_size overlap : Int)
    (custom_prompt : Option String) : Except String (Int × List String) :=
  if pyStripIsEmpty text then
    Except.error "Transcript text is empty"
  else if chunk_size ≤ 0 ∨ overlap < 0 then
    Except.error "Invalid chunk_size or overlap"
  else
    let overlap2 := if overlap ≥ chunk_size then chunk_size - 1 else overlap
    backend text model model_name chunk_size overlap2
      (pyOrDefault custom_prompt defaultPrompt)

/-- The request body of the `/process-transcript` endpoint
(`TranscriptRequest` in src/main.py:81-88). -/
structure TranscriptRequest where
  text : String
  model : String
  model_name : String
  meeting_id : String
  chunk_size : Int
  overlap : Int
  custom_prompt : Option String
deriving Repr, DecidableEq

/-- One call to `db.update_process(process_id, status=..., result=..., error=...)`:
the terminal job-state write issued by the background run. -/
structure StoreUpdate where
  process_id : String
  status : String
  result : Option String
  error : Option String
deriving Repr, DecidableEq

/-- Stands for Python `json.dumps` applied to the assembled per-chunk data
(an external library call); only its use as an opaque serializer matters. -/
def jsonDumps (xs : List String) : String :=
  "[" ++ String.intercalate ", " xs ++ "]"

/-- Embedding of `process_transcript_background` (src/main.py:153-169).
The Python function is a background task whose body is one `try/except`:
every exception is caught and converted into a `failed` store update, so
the embedding is a total function into `StoreUpdate` — nothing is
propagated to a caller. -/
def process_transcript_background (backend : Backend)
    (process_id : String) (t : TranscriptRequest) : StoreUpdate :=
  match SummaryProcessor.process_transcript backend t.text t.model t.model_name
      t.chunk_size t.overlap t.custom_prompt with
  | Except.ok (_, all_json_data) =>
      if all_json_data ≠ [] then
        { process_id := process_id, status := "completed",
          result := some (jsonDumps all_json_data), error := none }
      else
        { process_id := process_id, status := "failed",
          result := none, error := some "No chunks processed" }
  | Except.error e =>
      { process_id := process_id, status := "failed",
        result := none, error := some e }

/-- A row of the `summary_processes` table
(src/schema_validator.py:60-75; `meeting_id` is the PRIMARY KEY). -/
structure ProcessRow where
  meeting_id : String
  status : String
  created_at : String
  updated_at : String
  error : Option String
  result : Option String
  chunk_count : Int
deriving Repr, DecidableEq

/-- A row of the `transcript_chunks` table
(src/schema_validator.py:76-88; `meeting_id` is the PRIMARY KEY). -/
structure ChunkRow where
  meeting_id : String
  transcript_text : String
  model : String
  model_name : String
  chunk_size : Int
  overlap : Int
deriving Repr, DecidableEq

/-- The relational store as seen by the submit and read paths. -/
structure DBState where
  summary_processes : List ProcessRow
  transcript_chunks : List ChunkRow
deriving Repr, DecidableEq

/-- Modelled from the spec: `create(meeting_id) → job_id` of the Job Store
Adapter (§4.5) — `DatabaseManager.create_process` is not among the verified
sources (only its schema and callers are). It creates a Job record in
`pending`; per §4.4 re-submission overwrites the prior job state for that
meeting, matching `meeting_id` being the PRIMARY KEY of `summary_processes`.
The returned job identifier is the meeting identifier (the table is keyed by
it and the read path queries by `meeting_id`). -/
def pendingRow (meeting_id now : String) : ProcessRow :=
  { meeting_id := meeting_id, status := "pending", created_at := now,
    updated_at := now, error := none, result := none, chunk_count := 0 }

/-- Modelled from the spec: `create_process` inserts the fresh `pending`
row for the meeting, replacing any prior row with the same key. -/
def create_process (st : DBState) (meeting_id now : String) :
    DBState × String :=
  ({ st with summary_processes :=
      pendingRow meeting_id now ::
      st.summary_processes.filter (fun r => r.meeting_id ≠ meeting_id) },
   meeting_id)

/-- Modelled from the spec: persistence of the submitted transcript and its
parameters — `DatabaseManager.save_transcript` is not among the verified
sources. It writes one row of `transcript_chunks` (PRIMARY KEY
`meeting_id`, hence overwrite semantics). -/
def save_transcript (st : DBState) (t : TranscriptRequest) : DBState :=
  { st with transcript_chunks :=
      { meeting_id := t.meeting_id, transcript_text := t.text,
        model := t.model, model_name := t.model_name,
        chunk_size := t.chunk_size, overlap := t.overlap } ::
      st.transcript_chunks.filter (fun r => r.meeting_id ≠ t.meeting_id) }

/-- What the `/process-transcript` endpoint returns, together with the task
it scheduled: `background_tasks.add_task(process_transcript_background,
process_id, transcript)` defers the run; the embedding records the deferred
call's arguments. -/
structure ApiResult where
  message : String
  process_id : String
  scheduled : String × TranscriptRequest
deriving Repr, DecidableEq

/-- Embedding of `process_transcript_api` (src/main.py:171-176): creates the
process record, saves the transcript, schedules the background task, and
returns `{"message": "Processing started", "process_id": process_id}`.
No validation happens on this path; it never raises for invalid input. -/
def process_transcript_api (st : DBState) (t : TranscriptRequest)
    (now : String) : DBState × ApiResult :=
  let created := create_process st t.meeting_id now
  let st2 := save_transcript created.1 t
  (st2, { message := "Processing started", process_id := created.2,
          scheduled := (created.2, t) })

/-- Modelled from the spec: `read(job_id) → Job | NotFound` of the Job Store
Adapter (§4.5) — `DatabaseManager.get_transcript_data` is not among the
verified sources. It looks the job record up by meeting identifier. -/
def get_transcript_data (st : DBState) (meeting_id : String) :
    Option ProcessRow :=
  st.summary_processes.find? (fun r => r.meeting_id = meeting_id)

/-- Stands for Python `json.loads` on the stored result (an external library
call); the parsed value is represented by its source text. -/
def jsonLoads (s : String) : String := s

/-- Python `s.lower()`, modelled characterwise. -/
def pyLower (s : String) : String := String.mk (s.data.map Char.toLower)

/-- The JSON body the `/get-summary/{meeting_id}` endpoint returns. -/
structure SummaryResponse where
  status : String
  meeting_id : String
  data : Option String
deriving Repr, DecidableEq

/-- Embedding of `get_summary` (src/main.py:178-189): a missing record
raises `HTTPException(404, "Meeting ID not found")`; otherwise the stored
status is lowercased and the stored result, when truthy, is parsed. The
function also returns the store, unchanged, making the read-only character
of the path explicit. -/
def get_summary (st : DBState) (meeting_id : String) :
    Except (Nat × String) SummaryResponse × DBState :=
  match get_transcript_data st meeting_id with
  | none => (Except.error (404, "Meeting ID not found"), st)
  | some row =>
      (Except.ok
        { status := pyLower row.status, meeting_id := meeting_id,
          data := match row.result with
                  | none => none
                  | some s => if s.isEmpty then none else some (jsonLoads s) },
       st)

/-- Sequential execution of a batch of queries against the store, threading
the state; the first failing query aborts the batch (the loop body of
`_execute_transaction`, src/schema_validator.py:128-129). -/
def applyQueries {α : Type} (db : α) (qs : List (α → Except String α)) :
    Except String α :=
  match qs with
  | [] => Except.ok db
  | q :: rest =>
      match q db with
      | Except.ok db2 => applyQueries db2 rest
      | Except.error e => Except.error e

/-- Embedding of `DatabaseManager._execute_transaction`
(src/schema_validator.py:124-133): BEGIN, execute every query, COMMIT; on
any exception ROLLBACK and re-raise. The result is the committed store and
`none`, or the original store (rolled back) and the re-raised exception. -/
def DatabaseManager.execute_transaction {α : Type} (db : α)
    (qs : List (α → Except String α)) : α × Option String :=
  match applyQueries db qs with
  | Except.ok db2 => (db2, none)
  | Except.error e => (db, some e)

/-- A backend stub used only as a concrete input of witnesses. -/
def stubBackend (r : Except String (Int × List String)) : Backend :=
  fun _ _ _ _ _ _ => r

/-- A concrete request used only as input of witnesses. -/
def sampleRequest (text : String) (cs ov : Int) : TranscriptRequest :=
  { text := text, model := "ollama", model_name := "llama3",
    meeting_id := "m1", chunk_size := cs, overlap := ov,
    custom_prompt := none }

/-- Claim C1: with non-empty text, `chunk_size > 0` and
`overlap ≥ chunk_size`, the effective overlap passed to the chunking
backend is `chunk_size − 1`, so the window advance
`chunk_size − overlap` equals 1, hence is at least 1. -/
theorem C1_effective_overlap_clamped (backend : Backend)
    (text model model_name : String) (chunk_size overlap : Int)
    (custom_prompt : Option String)
    (htext : ¬ pyStripIsEmpty text) (hcs : 0 < chunk_size)
    (hov : chunk_size ≤ overlap) :
    SummaryProcessor.process_transcript backend text model model_name
        chunk_size overlap custom_prompt
      = backend text model model_name chunk_size (chunk_size - 1)
          (pyOrDefault custom_prompt defaultPrompt)
      ∧ chunk_size - (chunk_size - 1) = 1 := by
  have hov0 : (0 : Int) ≤ overlap := le_trans (le_of_lt hcs) hov
  constructor
  · unfold SummaryProcessor.process_transcript
    rw [if_neg htext, if_neg (by push_neg; exact ⟨hcs, hov0⟩), if_pos hov]
  · ring

theorem C1_effective_overlap_clamped_witness :
    ¬ (pyStripIsEmpty "hello" = true) ∧ (0 : Int) < 5 ∧ (5 : Int) ≤ 9 ∧
    SummaryProcessor.process_transcript (stubBackend (Except.ok (1, ["x"])))
        "hello" "ollama" "llama3" 5 9 none
      = stubBackend (Except.ok (1, ["x"])) "hello" "ollama" "llama3" 5 4
          (pyOrDefault none defaultPrompt) :=
  ⟨by decide, by decide, by decide,
   (C1_effective_overlap_clamped (stubBackend (Except.ok (1, ["x"])))
      "hello" "ollama" "llama3" 5 9 none (by decide) (by decide)
      (by decide)).1⟩

/-- Claim C2: a text that is empty or whitespace-only makes
`SummaryProcessor.process_transcript` raise (`ValueError`, the
`InvalidInput` case) before chunking or any backend invocation — the error
is the same for every backend; a non-empty text with valid parameters does
not raise at this validation step (the outcome is fully delegated to the
backend). -/
theorem C2_empty_text_rejected_before_chunking (backend : Backend)
    (text model model_name : String) (chunk_size overlap : Int)
    (custom_prompt : Option String) :
    (pyStripIsEmpty text →
      SummaryProcessor.process_transcript backend text model model_name
          chunk_size overlap custom_prompt
        = Except.error "Transcript text is empty")
    ∧ (¬ pyStripIsEmpty text → 0 < chunk_size → 0 ≤ overlap →
      SummaryProcessor.process_transcript backend text model model_name
          chunk_size overlap custom_prompt
        = backend text model model_name chunk_size
            (if overlap ≥ chunk_size then chunk_size - 1 else overlap)
            (pyOrDefault custom_prompt defaultPrompt)) := by
  constructor
  · intro h
    unfold SummaryProcessor.process_transcript
    rw [if_pos h]
  · intro h hcs hov
    unfold SummaryProcessor.process_transcript
    rw [if_neg h, if_neg (by push_neg; exact ⟨hcs, hov⟩)]

theorem C2_empty_text_rejected_before_chunking_witness :
    (pyStripIsEmpty "  \n " = true) ∧
    SummaryProcessor.process_transcript (stubBackend (Except.ok (1, ["x"])))
        "  \n " "ollama" "llama3" 5000 1000 none
      = Except.error "Transcript text is empty" :=
  ⟨by decide,
   (C2_empty_text_rejected_before_chunking (stubBackend (Except.ok (1, ["x"])))
      "  \n " "ollama" "llama3" 5000 1000 none).1 (by decide)⟩

/-- Counterexample to claim C4: at non-empty text, `chunk_size = 5 > 0` and
`overlap = -1 < 0`, `SummaryProcessor.process_transcript` raises
`ValueError("Invalid chunk_size or overlap")` instead of treating the
overlap as 0 and proceeding: the result is the error, not the backend's
output at overlap 0. -/
theorem C4_counterexample :
    SummaryProcessor.process_transcript (stubBackend (Except.ok (1, ["x"])))
        "hello" "ollama" "llama3" 5 (-1) none
      = Except.error "Invalid chunk_size or overlap"
    ∧ SummaryProcessor.process_transcript (stubBackend (Except.ok (1, ["x"])))
        "hello" "ollama" "llama3" 5 (-1) none
      ≠ stubBackend (Except.ok (1, ["x"])) "hello" "ollama" "llama3" 5 0
          (pyOrDefault none defaultPrompt) := by
  constructor
  · rfl
  · intro h
    have h2 : (Except.error "Invalid chunk_size or overlap"
          : Except String (Int × List String))
        = Except.ok ((1 : Int), ["x"]) := h
    exact Except.noConfusion h2

/-- Claim C4 as amended: for every non-empty text with `chunk_size > 0`
and `overlap < 0`, `SummaryProcessor.process_transcript` raises
`ValueError("Invalid chunk_size or overlap")` — a negative overlap is
rejected, not treated as 0, and no backend is invoked. -/
theorem C4_negative_overlap_rejected (backend : Backend)
    (text model model_name : String) (chunk_size overlap : Int)
    (custom_prompt : Option String)
    (htext : ¬ pyStripIsEmpty text) (_hcs : 0 < chunk_size)
    (hov : overlap < 0) :
    SummaryProcessor.process_transcript backend text model model_name
        chunk_size overlap custom_prompt
      = Except.error "Invalid chunk_size or overlap" := by
  unfold SummaryProcessor.process_transcript
  rw [if_neg htext, if_pos (Or.inr hov)]

theorem C4_negative_overlap_rejected_witness :
    ¬ (pyStripIsEmpty "hello" = true) ∧ (0 : Int) < 5 ∧ (-1 : Int) < 0 ∧
    SummaryProcessor.process_transcript (stubBackend (Except.ok (1, ["x"])))
        "hello" "ollama" "llama3" 5 (-1) none
      = Except.error "Invalid chunk_size or overlap" :=
  ⟨by decide, by decide, by decide,
   C4_negative_overlap_rejected (stubBackend (Except.ok (1, ["x"])))
     "hello" "ollama" "llama3" 5 (-1) none (by decide) (by decide)
     (by decide)⟩

/-- Claim C5: when the run yields no usable chunk output (the assembled
`all_json_data` is empty), the background run records the job `failed`
with the non-empty error `"No chunks processed"` and never records it
`completed`. -/
theorem C5_no_usable_chunks_failed (backend : Backend) (pid : String)
    (t : TranscriptRequest) (n : Int)
    (h : SummaryProcessor.process_transcript backend t.text t.model
          t.model_name t.chunk_size t.overlap t.custom_prompt
        = Except.ok (n, [])) :
    process_transcript_background backend pid t
      = { process_id := pid, status := "failed", result := none,
          error := some "No chunks processed" }
    ∧ ("No chunks processed" : String) ≠ ""
    ∧ (process_transcript_background backend pid t).status ≠ "completed" := by
  have hb : process_transcript_background backend pid t
      = { process_id := pid, status := "failed", result := none,
          error := some "No chunks processed" } := by
    unfold process_transcript_background
    rw [h]
    simp
  refine ⟨hb, by decide, ?_⟩
  rw [hb]
  exact (by decide : ("failed" : String) ≠ "completed")

theorem C5_no_usable_chunks_failed_witness :
    SummaryProcessor.process_transcript (stubBackend (Except.ok (0, [])))
        "hello" "ollama" "llama3" 5000 1000 none
      = Except.ok (0, [])
    ∧ process_transcript_background (stubBackend (Except.ok (0, [])))
        "proc1" (sampleRequest "hello" 5000 1000)
      = { process_id := "proc1", status := "failed", result := none,
          error := some "No chunks processed" } :=
  ⟨by rfl,
   (C5_no_usable_chunks_failed (stubBackend (Except.ok (0, []))) "proc1"
      (sampleRequest "hello" 5000 1000) 0 (by rfl)).1⟩

/-- Claim C6: every exception raised during the background run is captured
by the `try/except` into a store update with status `failed` and the
exception's text in the `error` field; the embedding of the background
task is a total function into `StoreUpdate`, so nothing is propagated to
any caller. -/
theorem C6_background_exception_captured (backend : Backend) (pid : String)
    (t : TranscriptRequest) (e : String)
    (h : SummaryProcessor.process_transcript backend t.text t.model
          t.model_name t.chunk_size t.overlap t.custom_prompt
        = Except.error e) :
    process_transcript_background backend pid t
      = { process_id := pid, status := "failed", result := none,
          error := some e } := by
  unfold process_transcript_background
  rw [h]

theorem C6_background_exception_captured_witness :
    SummaryProcessor.process_transcript (stubBackend (Except.error "boom"))
        "hello" "ollama" "llama3" 5000 1000 none
      = Except.error "boom"
    ∧ process_transcript_background (stubBackend (Except.error "boom"))
        "proc1" (sampleRequest "hello" 5000 1000)
      = { process_id := "proc1", status := "failed", result := none,
          error := some "boom" } :=
  ⟨by rfl,
   C6_background_exception_captured (stubBackend (Except.error "boom"))
     "proc1" (sampleRequest "hello" 5000 1000) "boom" (by rfl)⟩

/-- Claim C7: every terminal job-state update written by the background
run populates `result` only together with status `completed` and `error`
only together with status `failed`. -/
theorem C7_terminal_update_consistent (backend : Backend) (pid : String)
    (t : TranscriptRequest) :
    ((process_transcript_background backend pid t).result ≠ none →
      (process_transcript_background backend pid t).status = "completed")
    ∧ ((process_transcript_background backend pid t).error ≠ none →
      (process_transcript_background backend pid t).status = "failed") := by
  unfold process_transcript_background
  cases SummaryProcessor.process_transcript backend t.text t.model
      t.model_name t.chunk_size t.overlap t.custom_prompt with
  | ok v =>
      obtain ⟨n, data⟩ := v
      by_cases hd : data ≠ [] <;> simp [hd]
  | error e => simp

theorem C7_terminal_update_consistent_witness :
    (process_transcript_background (stubBackend (Except.ok (1, ["x"])))
        "proc1" (sampleRequest "hello" 5000 1000)).result ≠ none
    ∧ (process_transcript_background (stubBackend (Except.ok (1, ["x"])))
        "proc1" (sampleRequest "hello" 5000 1000)).status = "completed" :=
  ⟨by decide,
   (C7_terminal_update_consistent (stubBackend (Except.ok (1, ["x"])))
      "proc1" (sampleRequest "hello" 5000 1000)).1 (by decide)⟩

/-- Invalid input (empty/whitespace-only text or non-positive chunk size)
always makes `SummaryProcessor.process_transcript` raise, for every
backend. Shared helper lemma. -/
theorem processTranscript_invalid_input_error (backend : Backend)
    (text model model_name : String) (chunk_size overlap : Int)
    (custom_prompt : Option String)
    (h : pyStripIsEmpty text = true ∨ chunk_size ≤ 0) :
    ∃ e, SummaryProcessor.process_transcript backend text model model_name
        chunk_size overlap custom_prompt = Except.error e := by
  by_cases ht : pyStripIsEmpty text
  · exact ⟨"Transcript text is empty", by
      unfold SummaryProcessor.process_transcript
      rw [if_pos ht]⟩
  · have hcs : chunk_size ≤ 0 := h.resolve_left (by simpa using ht)
    exact ⟨"Invalid chunk_size or overlap", by
      unfold SummaryProcessor.process_transcript
      rw [if_neg ht, if_pos (Or.inl hcs)]⟩

/-- Counterexample to claim C3: submitting an invalid request (empty
transcript text) through `process_transcript_api` raises no synchronous
error — it answers `"Processing started"` — and afterwards a job record
for the meeting does exist in `summary_processes`. -/
theorem C3_counterexample :
    pyStripIsEmpty (sampleRequest "" 5000 1000).text = true
    ∧ (process_transcript_api ⟨[], []⟩ (sampleRequest "" 5000 1000)
        "t0").2.message = "Processing started"
    ∧ (process_transcript_api ⟨[], []⟩ (sampleRequest "" 5000 1000)
        "t0").1.summary_processes
      = [{ meeting_id := "m1", status := "pending", created_at := "t0",
           updated_at := "t0", error := none, result := none,
           chunk_count := 0 }] :=
  ⟨by decide, rfl, rfl⟩

/-- Claim C3 as amended: the submit path creates the job record before any
validation, so for an invalid submission (empty text or non-positive
chunk size) no error surfaces synchronously — the endpoint answers
`"Processing started"` and a `pending` record for the meeting exists —
and the validation error is instead recorded asynchronously by the
background run as a `failed` update with a non-empty error. -/
theorem C3_validation_after_job_creation (backend : Backend) (st : DBState)
    (t : TranscriptRequest) (now : String)
    (hinv : pyStripIsEmpty t.text = true ∨ t.chunk_size ≤ 0) :
    (∃ r ∈ (process_transcript_api st t now).1.summary_processes,
        r.meeting_id = t.meeting_id ∧ r.status = "pending")
    ∧ (process_transcript_api st t now).2.message = "Processing started"
    ∧ (process_transcript_background backend
        (process_transcript_api st t now).2.process_id t).status = "failed"
    ∧ (process_transcript_background backend
        (process_transcript_api st t now).2.process_id t).error ≠ none := by
  obtain ⟨e, he⟩ := processTranscript_invalid_input_error backend t.text
    t.model t.model_name t.chunk_size t.overlap t.custom_prompt hinv
  have hbg : ∀ pid, process_transcript_background backend pid t
      = { process_id := pid, status := "failed", result := none,
          error := some e } := by
    intro pid
    unfold process_transcript_background
    rw [he]
  refine ⟨?_, rfl, ?_, ?_⟩
  · refine ⟨pendingRow t.meeting_id now, ?_, rfl, rfl⟩
    simp [process_transcript_api, create_process, save_transcript]
  · simp [hbg]
  · simp [hbg]

theorem C3_validation_after_job_creation_witness :
    (pyStripIsEmpty (sampleRequest "" 5000 1000).text = true
      ∨ (sampleRequest "" 5000 1000).chunk_size ≤ 0)
    ∧ (process_transcript_background (stubBackend (Except.ok (1, ["x"])))
        (process_transcript_api ⟨[], []⟩ (sampleRequest "" 5000 1000)
          "t0").2.process_id
        (sampleRequest "" 5000 1000)).status = "failed" :=
  ⟨Or.inl (by decide),
   (C3_validation_after_job_creation (stubBackend (Except.ok (1, ["x"])))
      ⟨[], []⟩ (sampleRequest "" 5000 1000) "t0"
      (Or.inl (by decide))).2.2.1⟩

/-- Claim C8: `summary_processes` is keyed by `meeting_id` (its PRIMARY
KEY), so for every store in which meeting identifiers are pairwise
distinct, a new submission for a meeting leaves exactly one current job
record for that meeting — the fresh `pending` one, overwriting any prior
job state — and keeps the keys pairwise distinct. -/
theorem C8_one_job_per_meeting (st : DBState) (t : TranscriptRequest)
    (now : String)
    (h : st.summary_processes.Pairwise
      (fun a b => a.meeting_id ≠ b.meeting_id)) :
    ((process_transcript_api st t now).1.summary_processes).Pairwise
      (fun a b => a.meeting_id ≠ b.meeting_id)
    ∧ ((process_transcript_api st t now).1.summary_processes).countP
        (fun r => r.meeting_id == t.meeting_id) = 1
    ∧ ∀ r ∈ (process_transcript_api st t now).1.summary_processes,
        r.meeting_id = t.meeting_id → r = pendingRow t.meeting_id now := by
  have hst : (process_transcript_api st t now).1.summary_processes
      = pendingRow t.meeting_id now ::
        st.summary_processes.filter
          (fun r => r.meeting_id ≠ t.meeting_id) := by
    simp [process_transcript_api, create_process, save_transcript]
  rw [hst]
  refine ⟨?_, ?_, ?_⟩
  · refine List.Pairwise.cons ?_ (h.filter _)
    intro b hb
    have := List.of_mem_filter hb
    simp only [decide_eq_true_eq] at this
    exact fun hc => this hc.symm
  · rw [List.countP_cons]
    have h0 : (st.summary_processes.filter
        (fun r => r.meeting_id ≠ t.meeting_id)).countP
        (fun r => r.meeting_id == t.meeting_id) = 0 := by
      rw [List.countP_eq_zero]
      intro a ha
      have := List.of_mem_filter ha
      simp only [decide_eq_true_eq] at this
      simpa using this
    simp [h0, pendingRow]
  · intro r hr hmid
    rcases List.mem_cons.mp hr with h1 | h2
    · exact h1
    · exfalso
      have := List.of_mem_filter h2
      simp only [decide_eq_true_eq] at this
      exact this hmid

theorem C8_one_job_per_meeting_witness :
    ([{ meeting_id := "m1", status := "completed", created_at := "t0",
        updated_at := "t0", error := none, result := some "[1]",
        chunk_count := 3 }] : List ProcessRow).Pairwise
      (fun a b => a.meeting_id ≠ b.meeting_id)
    ∧ ((process_transcript_api
        ⟨[{ meeting_id := "m1", status := "completed", created_at := "t0",
            updated_at := "t0", error := none, result := some "[1]",
            chunk_count := 3 }], []⟩
        (sampleRequest "hello" 5000 1000) "t1").1.summary_processes).countP
        (fun r => r.meeting_id == (sampleRequest "hello" 5000 1000).meeting_id)
      = 1 :=
  ⟨by simp, (C8_one_job_per_meeting
      ⟨[{ meeting_id := "m1", status := "completed", created_at := "t0",
          updated_at := "t0", error := none, result := some "[1]",
          chunk_count := 3 }], []⟩
      (sampleRequest "hello" 5000 1000) "t1" (by simp)).2.1⟩

/-- A concrete store used only as input of witnesses. -/
def sampleState : DBState :=
  { summary_processes :=
      [{ meeting_id := "m1", status := "COMPLETED", created_at := "t0",
         updated_at := "t1", error := none, result := some "[1]",
         chunk_count := 3 }],
    transcript_chunks := [] }

/-- Claim C9: the read path `get_summary` fails with `NotFound`
(HTTP 404) and returns no data when no record exists for the identifier;
when a record exists it returns the stored status (lowercased) and the
parsed stored result; in both cases the store is left unchanged. -/
theorem C9_get_summary_read_only (st : DBState) (meeting_id : String) :
    (get_transcript_data st meeting_id = none →
      get_summary st meeting_id
        = (Except.error (404, "Meeting ID not found"), st))
    ∧ (∀ row, get_transcript_data st meeting_id = some row →
      (get_summary st meeting_id).1
        = Except.ok
            { status := pyLower row.status, meeting_id := meeting_id,
              data := match row.result with
                      | none => none
                      | some s =>
                          if s.isEmpty then none else some (jsonLoads s) })
    ∧ (get_summary st meeting_id).2 = st := by
  unfold get_summary
  refine ⟨?_, ?_, ?_⟩
  · intro h
    rw [h]
  · intro row h
    rw [h]
  · cases h : get_transcript_data st meeting_id <;> simp

theorem C9_get_summary_read_only_witness :
    (get_transcript_data sampleState "m2" = none
      ∧ get_summary sampleState "m2"
        = (Except.error (404, "Meeting ID not found"), sampleState))
    ∧ (get_transcript_data sampleState "m1"
        = some { meeting_id := "m1", status := "COMPLETED",
                 created_at := "t0", updated_at := "t1", error := none,
                 result := some "[1]", chunk_count := 3 }
      ∧ (get_summary sampleState "m1").1
        = Except.ok { status := "completed", meeting_id := "m1",
                      data := some "[1]" }) :=
  ⟨⟨by decide, (C9_get_summary_read_only sampleState "m2").1 (by decide)⟩,
   ⟨by decide,
    ((C9_get_summary_read_only sampleState "m1").2.1
        { meeting_id := "m1", status := "COMPLETED", created_at := "t0",
          updated_at := "t1", error := none, result := some "[1]",
          chunk_count := 3 } (by decide)).trans (by rfl)⟩⟩

/-- Running the queries of a concatenated batch runs the first part and,
when it succeeds, continues with the second from the reached state.
Shared helper lemma. -/
theorem applyQueries_append {α : Type} (db : α)
    (qs1 qs2 : List (α → Except String α)) :
    applyQueries db (qs1 ++ qs2)
      = match applyQueries db qs1 with
        | Except.ok db2 => applyQueries db2 qs2
        | Except.error e => Except.error e := by
  induction qs1 generalizing db with
  | nil => simp [applyQueries]
  | cons q rest ih =>
      simp only [List.cons_append, applyQueries]
      cases q db with
      | ok db2 => exact ih db2
      | error e => rfl

/-- Claim C10: `_execute_transaction` is atomic — when some query of the
batch raises (the prefix before it having succeeded), the whole batch is
rolled back (the store is the original one, untouched) and that query's
exception is re-raised; and when every query succeeds the final store is
the one reached by running the whole batch in order, with no exception. -/
theorem C10_execute_transaction_atomic {α : Type} (db : α)
    (qs : List (α → Except String α)) :
    (∀ qs1 q qs2 d1 e, qs = qs1 ++ q :: qs2 →
        applyQueries db qs1 = Except.ok d1 → q d1 = Except.error e →
        DatabaseManager.execute_transaction db qs = (db, some e))
    ∧ (∀ d, applyQueries db qs = Except.ok d →
        DatabaseManager.execute_transaction db qs = (d, none)) := by
  constructor
  · intro qs1 q qs2 d1 e hqs h1 h2
    have herr : applyQueries db qs = Except.error e := by
      rw [hqs, applyQueries_append, h1]
      show applyQueries d1 (q :: qs2) = Except.error e
      unfold applyQueries
      rw [h2]
    unfold DatabaseManager.execute_transaction
    rw [herr]
  · intro d hd
    unfold DatabaseManager.execute_transaction
    rw [hd]

theorem C10_execute_transaction_atomic_witness :
    applyQueries (0 : Nat) [fun n => Except.ok (n + 1)] = Except.ok 1
    ∧ (fun _ => (Except.error "boom" : Except String Nat)) 1
        = Except.error "boom"
    ∧ DatabaseManager.execute_transaction (0 : Nat)
        [fun n => Except.ok (n + 1),
         fun _ => (Except.error "boom" : Except String Nat),
         fun n => Except.ok (n + 7)]
      = (0, some "boom")
    ∧ DatabaseManager.execute_transaction (0 : Nat)
        [fun n => Except.ok (n + 1), fun n => Except.ok (n + 7)]
      = (8, none) :=
  ⟨rfl, rfl,
   (C10_execute_transaction_atomic (0 : Nat)
      [fun n => Except.ok (n + 1),
       fun _ => (Except.error "boom" : Except String Nat),
       fun n => Except.ok (n + 7)]).1
     [fun n => Except.ok (n + 1)]
     (fun _ => (Except.error "boom" : Except String Nat))
     [fun n => Except.ok (n + 7)] 1 "boom" rfl rfl rfl,
   (C10_execute_transaction_atomic (0 : Nat)
      [fun n => Except.ok (n + 1), fun n => Except.ok (n + 7)]).2 8 rfl⟩
